import Mathlib

/-!
Shallow embedding of the snapshot-parsing and metric-derivation core of the
`python_projects` repository (storage-durability analysis scripts), together
with proofs about the embedded functions.

Conventions of the embedding:
* Python `float` values are modelled as `ℚ` (every numeric literal appearing
  in the data files is rational, and none of the verified properties depends
  on binary rounding); Python `int` values are modelled as `ℤ`.
* A data line is modelled *after* the `line.split(',')` step, as a `List Tok`:
  each token is either the text of an integer literal (`Tok.int`), the text of
  a non-integer numeric literal (`Tok.real`), or non-numeric text (`Tok.bad`).
  Python's `float(tok)` succeeds on the first two, `int(tok)` only on the
  first; both raise `ValueError` on `Tok.bad`.  A blank line (skipped by the
  scripts via `if not line: continue`) is modelled as the empty token list,
  which every parser below also skips because it is shorter than any
  minimum-column guard.
* Python list indexing `parts[i]` is `List.get?` (an out-of-range access is
  `IndexError`); mutation of the per-file accumulator lists is explicit state
  passing; an exception escaping a function is `Except.error`.
-/

namespace Snaps

/-- One comma-separated token of a data line, abstracted to how Python's
numeric conversions treat its text: an integer literal, a non-integer numeric
literal, or non-numeric text. -/
inductive Tok
  | int (n : ℤ)
  | real (q : ℚ)
  | bad
deriving DecidableEq, Repr

/-- Python `float(tok)`: succeeds on any numeric literal, `ValueError`
(modelled as `none`) on non-numeric text. -/
def pyFloat : Tok → Option ℚ
  | Tok.int n => some (n : ℚ)
  | Tok.real q => some q
  | Tok.bad => none

/-- Python `int(tok)`: succeeds only on an integer literal; `ValueError` on a
non-integer numeric literal (e.g. `int("5.5")`) and on non-numeric text. -/
def pyInt : Tok → Option ℤ
  | Tok.int n => some n
  | Tok.real _ => none
  | Tok.bad => none

/-- A data line after splitting on the delimiter. -/
abbrev Line := List Tok

/-- Python `int(float(tok))` truncates toward zero. -/
def pyTrunc (q : ℚ) : ℤ := if 0 ≤ q then ⌊q⌋ else ⌈q⌉

/-! ## Cumulative-sum derivation
Embedded from `analyze_snaps_format2.py`, `calculate_metrics`, lines 92–97:
```
cumulative_lost = []
total = 0
for lost in data['objects_lost_since_snap']:
    total += lost
    cumulative_lost.append(total)
```
`runningTotalAux total l` is the list appended by the loop when the
accumulator starts at `total`. -/

def runningTotalAux (total : ℚ) : List ℚ → List ℚ
  | [] => []
  | lost :: rest => (total + lost) :: runningTotalAux (total + lost) rest

/-- The `cumulative_lost` column derived from the per-snapshot increments. -/
def runningTotal (losses : List ℚ) : List ℚ := runningTotalAux 0 losses

theorem runningTotalAux_length (total : ℚ) (l : List ℚ) :
    (runningTotalAux total l).length = l.length := by
  induction l generalizing total with
  | nil => rfl
  | cons a rest ih => simp [runningTotalAux, ih]

theorem runningTotal_length (l : List ℚ) : (runningTotal l).length = l.length :=
  runningTotalAux_length 0 l

theorem runningTotalAux_getD (total : ℚ) (l : List ℚ) :
    ∀ i, i < l.length →
      (runningTotalAux total l).getD i 0 =
        (if i = 0 then total else (runningTotalAux total l).getD (i - 1) 0) +
          l.getD i 0 := by
  induction l generalizing total with
  | nil => intro i hi; simp at hi
  | cons a rest ih =>
    intro i hi
    match i with
    | 0 => simp [runningTotalAux]
    | 1 =>
      simp only [runningTotalAux, List.getD_cons_succ, List.getD_cons_zero]
      match rest, hi with
      | b :: rest', _ =>
        have := ih (total + a) 0 (by simp)
        simpa using this
    | (n + 2) =>
      simp only [runningTotalAux, List.getD_cons_succ]
      have hn : n + 1 < rest.length := by
        simpa using Nat.lt_of_succ_lt_succ hi
      have := ih (total + a) (n + 1) hn
      simpa using this

theorem runningTotalAux_getLastD (total : ℚ) (l : List ℚ) :
    (runningTotalAux total l).getLastD total = total + l.sum := by
  induction l generalizing total with
  | nil => simp [runningTotalAux]
  | cons a rest ih =>
    rw [show runningTotalAux total (a :: rest) =
      (total + a) :: runningTotalAux (total + a) rest from rfl]
    rw [List.getLastD_cons, ih (total + a)]
    simp only [List.sum_cons]
    ring

theorem runningTotalAux_chain' (total : ℚ) (l : List ℚ)
    (h : ∀ x ∈ l, 0 ≤ x) : (runningTotalAux total l).Chain' (· ≤ ·) := by
  induction l generalizing total with
  | nil => simp [runningTotalAux]
  | cons a rest ih =>
    rw [show runningTotalAux total (a :: rest) =
      (total + a) :: runningTotalAux (total + a) rest from rfl]
    rw [List.chain'_cons']
    refine ⟨?_, ih (total + a) fun x hx => h x (List.mem_cons_of_mem a hx)⟩
    intro b hb
    match rest, hb with
    | c :: rest', hb =>
      rw [show runningTotalAux (total + a) (c :: rest') =
        (total + a + c) :: runningTotalAux (total + a + c) rest' from rfl] at hb
      simp only [List.head?_cons, Option.mem_def, Option.some.injEq] at hb
      have hc : 0 ≤ c := h c (by simp)
      linarith [hb]

/-! ## `analyze_snaps_format2.py`
`parse_snaps_file` (lines 16–85) locates columns by matching the header's
column names, then for every data line appends the seven extracted fields one
by one inside a single `try` block; `calculate_metrics` (lines 87–116) derives
the cumulative-lost, percentage and total-expired columns. -/

/-- A column name of the format-2 header, as matched by the `elif` chain at
lines 46–60; any other header text is `other`. -/
inductive ColName
  | timestamp
  | objects_lost_since_last_snap
  | total_objects_in_the_system
  | total_objects_in_cache
  | tubes_wetted_percent
  | tubes_expired_by_reads_percent
  | tubes_expired_by_time_percent
  | other
deriving DecidableEq, Repr

/-- The `col_indices` dict: a key is absent (`none`) when no header column
matched its name. -/
structure ColIndices where
  timestamp : Option ℕ
  objects_lost : Option ℕ
  total_objects : Option ℕ
  objects_in_cache : Option ℕ
  tubes_wetted : Option ℕ
  expired_reads : Option ℕ
  expired_time : Option ℕ
deriving DecidableEq, Repr

/-- The header scan of lines 45–60: each matching column overwrites the entry,
so the last occurrence of a duplicated name wins (as in the Python dict). -/
def findColIndices (columns : List ColName) : ColIndices :=
  columns.enum.foldl
    (fun acc p =>
      match p.2 with
      | ColName.timestamp => { acc with timestamp := some p.1 }
      | ColName.objects_lost_since_last_snap => { acc with objects_lost := some p.1 }
      | ColName.total_objects_in_the_system => { acc with total_objects := some p.1 }
      | ColName.total_objects_in_cache => { acc with objects_in_cache := some p.1 }
      | ColName.tubes_wetted_percent => { acc with tubes_wetted := some p.1 }
      | ColName.tubes_expired_by_reads_percent => { acc with expired_reads := some p.1 }
      | ColName.tubes_expired_by_time_percent => { acc with expired_time := some p.1 }
      | ColName.other => acc)
    ⟨none, none, none, none, none, none, none⟩

/-- The `data` dict of lists filled by the parse loop (lines 26–34, 73–79). -/
structure Format2Data where
  timestamp : List ℚ
  objects_lost_since_snap : List ℚ
  total_objects_in_system : List ℚ
  total_objects_in_cache : List ℚ
  tubes_wetted_percent : List ℚ
  tubes_expired_by_reads_percent : List ℚ
  tubes_expired_by_time_percent : List ℚ
deriving DecidableEq, Repr

/-- How one field access `float(parts[col_indices[k]])` can go: a missing
`col_indices` key is a `KeyError` (NOT caught by the `except (ValueError,
IndexError)` clause at line 80, so it escapes the function); an out-of-range
index is an `IndexError` and a failed conversion a `ValueError` (both caught:
the line is skipped, keeping whatever was already appended). -/
inductive FieldErr
  | keyErr
  | lineErr
deriving DecidableEq, Repr

/-- Evaluate `float(parts[ci[k]])` for one field. -/
def getField (ci : Option ℕ) (parts : Line) : Except FieldErr ℚ :=
  match ci with
  | none => Except.error FieldErr.keyErr
  | some i =>
    match parts.get? i with
    | none => Except.error FieldErr.lineErr
    | some tok =>
      match pyFloat tok with
      | none => Except.error FieldErr.lineErr
      | some q => Except.ok q

/-- One iteration of the data loop (lines 65–82).  The seven
`data[...].append(float(parts[...]))` statements run in order; an append that
has already executed is kept even when a later field of the same line fails
(Python list mutation), and a `KeyError` aborts the whole call. -/
def f2LineStep (ci : ColIndices) (st : Format2Data) (parts : Line) :
    Except Unit Format2Data :=
  match getField ci.timestamp parts with
  | Except.error FieldErr.keyErr => Except.error ()
  | Except.error FieldErr.lineErr => Except.ok st
  | Except.ok v0 =>
    let st := { st with timestamp := st.timestamp ++ [v0] }
    match getField ci.objects_lost parts with
    | Except.error FieldErr.keyErr => Except.error ()
    | Except.error FieldErr.lineErr => Except.ok st
    | Except.ok v1 =>
      let st := { st with objects_lost_since_snap := st.objects_lost_since_snap ++ [v1] }
      match getField ci.total_objects parts with
      | Except.error FieldErr.keyErr => Except.error ()
      | Except.error FieldErr.lineErr => Except.ok st
      | Except.ok v2 =>
        let st := { st with total_objects_in_system := st.total_objects_in_system ++ [v2] }
        match getField ci.objects_in_cache parts with
        | Except.error FieldErr.keyErr => Except.error ()
        | Except.error FieldErr.lineErr => Except.ok st
        | Except.ok v3 =>
          let st := { st with total_objects_in_cache := st.total_objects_in_cache ++ [v3] }
          match getField ci.tubes_wetted parts with
          | Except.error FieldErr.keyErr => Except.error ()
          | Except.error FieldErr.lineErr => Except.ok st
          | Except.ok v4 =>
            let st := { st with tubes_wetted_percent := st.tubes_wetted_percent ++ [v4] }
            match getField ci.expired_reads parts with
            | Except.error FieldErr.keyErr => Except.error ()
            | Except.error FieldErr.lineErr => Except.ok st
            | Except.ok v5 =>
              let st := { st with tubes_expired_by_reads_percent := st.tubes_expired_by_reads_percent ++ [v5] }
              match getField ci.expired_time parts with
              | Except.error FieldErr.keyErr => Except.error ()
              | Except.error FieldErr.lineErr => Except.ok st
              | Except.ok v6 =>
                Except.ok { st with tubes_expired_by_time_percent := st.tubes_expired_by_time_percent ++ [v6] }

/-- `parse_snaps_file` of `analyze_snaps_format2.py`: the header line is read
first (here already split into `ColName`s), the remaining lines are the data
rows; a blank line (`[]`) is skipped (`if not line: continue`). -/
def parse_snaps_file_f2 (header : List ColName) (rows : List Line) :
    Except Unit Format2Data :=
  let ci := findColIndices header
  rows.foldl
    (fun acc parts =>
      match acc with
      | Except.error e => Except.error e
      | Except.ok st => if parts = [] then Except.ok st else f2LineStep ci st parts)
    (Except.ok ⟨[], [], [], [], [], [], []⟩)

/-- The result of `calculate_metrics` (lines 111–116). -/
structure Format2Metrics where
  cumulative_lost : List ℚ
  lost_objects_percent : List ℚ
  objects_in_cache_percent : List ℚ
  total_expired_tubes_percent : List ℚ
deriving DecidableEq, Repr

/-- `calculate_metrics` (lines 87–116): running total of the per-snapshot
losses, percentages against the caller-supplied `total_objects`, and the
elementwise sum of the two expiry-percentage columns (`zip` truncates to the
shorter list, as in Python). -/
def calculate_metrics (data : Format2Data) (total_objects : ℚ) : Format2Metrics :=
  let cumulative_lost := runningTotal data.objects_lost_since_snap
  { cumulative_lost := cumulative_lost
    lost_objects_percent := cumulative_lost.map (fun lost => lost / total_objects * 100)
    objects_in_cache_percent :=
      data.total_objects_in_cache.map (fun cache => cache / total_objects * 100)
    total_expired_tubes_percent :=
      (data.tubes_expired_by_reads_percent.zip data.tubes_expired_by_time_percent).map
        (fun p => p.1 + p.2) }

/-! ## `analyze_object_loss_percentage.py`, `parse_new_snapshot_file` (lines 13–68) -/

/-- The loop state of `parse_new_snapshot_file`: the three accumulator lists,
`initial_objects` (`None` until a positive total is seen) and
`running_lost_count`. -/
structure LossState where
  times : List ℚ
  cumulative_lost : List ℤ
  total_objects_in_system : List ℤ
  initial_objects : Option ℤ
  running_lost_count : ℤ
deriving DecidableEq, Repr

/-- The conversions of the `try` block (lines 43–45): `float(parts[0])`,
`int(parts[10])`, `int(parts[12])`; a `ValueError`/`IndexError` anywhere
means the line is skipped (`none`).  All three run before any list is
mutated, so a failing line leaves the state untouched. -/
def lossRowVals (parts : Line) : Option (ℚ × ℤ × ℤ) :=
  match parts.get? 0 with
  | none => none
  | some t0 =>
    match pyFloat t0 with
    | none => none
    | some ts =>
      match parts.get? 10 with
      | none => none
      | some t10 =>
        match pyInt t10 with
        | none => none
        | some lost =>
          match parts.get? 12 with
          | none => none
          | some t12 =>
            match pyInt t12 with
            | none => none
            | some tot => some (ts, lost, tot)

/-- One iteration of the data loop (lines 33–59): skip blank/short lines
(`len(parts) < 13`), otherwise convert, possibly establish
`initial_objects` from the first positive total, accumulate the running lost
count and append to the three lists. -/
def lossLineStep (st : LossState) (parts : Line) : LossState :=
  if parts.length < 13 then st
  else
    match lossRowVals parts with
    | none => st
    | some (ts, lost, tot) =>
      let initial :=
        match st.initial_objects with
        | none => if 0 < tot then some tot else none
        | some r => some r
      let running := st.running_lost_count + lost
      { times := st.times ++ [ts]
        cumulative_lost := st.cumulative_lost ++ [running]
        total_objects_in_system := st.total_objects_in_system ++ [tot]
        initial_objects := initial
        running_lost_count := running }

/-- The tuple returned by `parse_new_snapshot_file` (line 68). -/
structure LossResult where
  times : List ℚ
  cumulative_lost : List ℤ
  loss_percentages : List ℚ
  total_objects_in_system : List ℤ
  initial_objects : Option ℤ
deriving DecidableEq, Repr

/-- `parse_new_snapshot_file`: fold the line step over `lines[1:]`, then
derive `loss_percentages` only under `if initial_objects and
initial_objects > 0:` (lines 62–66) — otherwise the percentage column stays
the empty list. -/
def parse_new_snapshot_file (lines : List Line) : LossResult :=
  let st := (lines.drop 1).foldl lossLineStep ⟨[], [], [], none, 0⟩
  let pcts : List ℚ :=
    match st.initial_objects with
    | none => []
    | some r =>
      if 0 < r then st.cumulative_lost.map (fun lost => (lost : ℚ) / (r : ℚ) * 100)
      else []
  ⟨st.times, st.cumulative_lost, pcts, st.total_objects_in_system, st.initial_objects⟩

/-! ## `analyze_objects_departed.py`, `parse_snapshot_for_departures` (lines 13–66) -/

/-- The loop state (equals the returned tuple, line 66). -/
structure DepartState where
  times : List ℚ
  objects_in_system : List ℤ
  objects_departed : List ℤ
  departure_percentage : List ℚ
  initial_objects : Option ℤ
deriving DecidableEq, Repr

/-- The conversions of the `try` block (lines 43–44): `float(parts[0])` and
`int(parts[12])`. -/
def departRowVals (parts : Line) : Option (ℚ × ℤ) :=
  match parts.get? 0 with
  | none => none
  | some t0 =>
    match pyFloat t0 with
    | none => none
    | some ts =>
      match parts.get? 12 with
      | none => none
      | some t12 =>
        match pyInt t12 with
        | none => none
        | some tot => some (ts, tot)

/-- One iteration of the data loop (lines 33–61): after possibly establishing
`initial_objects`, `if initial_objects and initial_objects > 0:` computes
`departed = initial_objects - total_objects` and `departure_pct = departed /
initial_objects * 100`, **else appends `departed = 0`, `departure_pct = 0.0`**
(lines 54–56). -/
def departLineStep (st : DepartState) (parts : Line) : DepartState :=
  if parts.length < 13 then st
  else
    match departRowVals parts with
    | none => st
    | some (ts, tot) =>
      let initial :=
        match st.initial_objects with
        | none => if 0 < tot then some tot else none
        | some r => some r
      let dep : ℤ × ℚ :=
        match initial with
        | some r => if 0 < r then (r - tot, ((r - tot : ℤ) : ℚ) / (r : ℚ) * 100) else (0, 0)
        | none => (0, 0)
      { times := st.times ++ [ts]
        objects_in_system := st.objects_in_system ++ [tot]
        objects_departed := st.objects_departed ++ [dep.1]
        departure_percentage := st.departure_percentage ++ [dep.2]
        initial_objects := initial }

/-- `parse_snapshot_for_departures`: fold the line step over `lines[1:]`. -/
def parse_snapshot_for_departures (lines : List Line) : DepartState :=
  (lines.drop 1).foldl departLineStep ⟨[], [], [], [], none⟩

/-! ## Header-relative time conversion
`track_tube_status.py` lines 50–55 and `track_tube_status_with_triplets.py`
lines 64–69:
```
if max_time:
    year = (timestamp / max_time) * 10
else:
    year = timestamp / 182625 * 10  # Fallback
```
`max_time` is `None` (falsy) when the preamble gave none, and `0.0` is also
falsy in Python. -/
def toYear (max_time : Option ℚ) (timestamp : ℤ) : ℚ :=
  match max_time with
  | some m => if m ≠ 0 then (timestamp : ℚ) / m * 10 else (timestamp : ℚ) / 182625 * 10
  | none => (timestamp : ℚ) / 182625 * 10

/-! ## `track_tube_status_with_triplets.py`, `parse_snaps_file` (lines 17–81) -/

/-- The tuple returned at line 81. -/
structure TripletsResult where
  years : List ℚ
  lost_percentages : List ℚ
  copysets_3_pct : List ℚ
  copysets_2_pct : List ℚ
  copysets_1_pct : List ℚ
  copysets_0_pct : List ℚ
  initial_tubes : Option ℤ
deriving DecidableEq, Repr

/-- Preamble parsing (lines 39–48): from `lines[1]`, `initial_tubes =
int(header_parts[1])` then `max_time = float(header_parts[2])` inside one
`try ... except ValueError: pass` — so when the `float` fails after the `int`
succeeded, `initial_tubes` keeps its value while `max_time` stays `None`. -/
def tripletsHeader (lines : List Line) : Option ℤ × Option ℚ :=
  match lines.get? 1 with
  | none => (none, none)
  | some hp =>
    if 2 < hp.length then
      match hp.get? 1 with
      | none => (none, none)
      | some t1 =>
        match pyInt t1 with
        | none => (none, none)
        | some it =>
          match hp.get? 2 with
          | none => (some it, none)
          | some t2 =>
            match pyFloat t2 with
            | none => (some it, none)
            | some mt => (some it, some mt)
    else (none, none)

/-- The conversions of the `try` block (lines 57–62): `int(parts[0])` and the
five `float` fields at offsets 9, 12, 13, 14, 15. -/
def tripletsRowVals (parts : Line) : Option (ℤ × ℚ × ℚ × ℚ × ℚ × ℚ) :=
  match parts.get? 0 with
  | none => none
  | some t0 =>
    match pyInt t0 with
    | none => none
    | some ts =>
      match parts.get? 9 with
      | none => none
      | some t9 =>
        match pyFloat t9 with
        | none => none
        | some lp =>
          match parts.get? 12, parts.get? 13, parts.get? 14, parts.get? 15 with
          | some a12, some a13, some a14, some a15 =>
            match pyFloat a12, pyFloat a13, pyFloat a14, pyFloat a15 with
            | some c3, some c2, some c1, some c0 => some (ts, lp, c3, c2, c1, c0)
            | _, _, _, _ => none
          | _, _, _, _ => none

/-- One iteration of the data loop (lines 51–78): only lines with at least 16
columns enter the `try` block (`if len(parts) >= 16`); everything shorter —
including every row of a pairwise-shaped file — is silently skipped.  All
conversions precede the appends, so a skipped line leaves the state
untouched. -/
def tripletsLineStep (max_time : Option ℚ) (st : TripletsResult) (parts : Line) :
    TripletsResult :=
  if 16 ≤ parts.length then
    match tripletsRowVals parts with
    | none => st
    | some (ts, lp, c3, c2, c1, c0) =>
      { years := st.years ++ [toYear max_time ts]
        lost_percentages := st.lost_percentages ++ [lp]
        copysets_3_pct := st.copysets_3_pct ++ [c3]
        copysets_2_pct := st.copysets_2_pct ++ [c2]
        copysets_1_pct := st.copysets_1_pct ++ [c1]
        copysets_0_pct := st.copysets_0_pct ++ [c0]
        initial_tubes := st.initial_tubes }
  else st

/-- `parse_snaps_file` of `track_tube_status_with_triplets.py`: preamble from
`lines[1]`, data rows from `lines[4:]`. -/
def parse_snaps_file_triplets (lines : List Line) : TripletsResult :=
  let hd := tripletsHeader lines
  (lines.drop 4).foldl (tripletsLineStep hd.2) ⟨[], [], [], [], [], [], hd.1⟩

/-! ## `track_tube_status.py`, `parse_snaps_file` (lines 16–63) -/

/-- Preamble parsing (lines 33–40): only `max_time = float(header_parts[2])`
under `if len(header_parts) > 2`, with `ValueError` passed over. -/
def trackHeader (lines : List Line) : Option ℚ :=
  match lines.get? 1 with
  | none => none
  | some hp =>
    if 2 < hp.length then
      match hp.get? 2 with
      | none => none
      | some t2 => pyFloat t2
    else none

/-- One iteration of the data loop (lines 43–60): lines with at least 10
columns yield `int(parts[0])` and `float(parts[9])`, converted to years via
the header-relative rule. -/
def trackLineStep (max_time : Option ℚ) (st : List ℚ × List ℚ) (parts : Line) :
    List ℚ × List ℚ :=
  if 10 ≤ parts.length then
    match parts.get? 0 with
    | none => st
    | some t0 =>
      match pyInt t0 with
      | none => st
      | some ts =>
        match parts.get? 9 with
        | none => st
        | some t9 =>
          match pyFloat t9 with
          | none => st
          | some lp => (st.1 ++ [toYear max_time ts], st.2 ++ [lp])
  else st

/-- `parse_snaps_file` of `track_tube_status.py`: returns `(years,
lost_percentages)`, data rows from `lines[4:]`. -/
def parse_snaps_file_track (lines : List Line) : List ℚ × List ℚ :=
  let mt := trackHeader lines
  (lines.drop 4).foldl (trackLineStep mt) ([], [])

/-! ## `compare_folders_comprehensive.py`, `parse_snapshot_file_detailed` (lines 6–64) -/

/-- The dictionary returned at lines 54–64. -/
structure DetailedResult where
  time : List ℚ
  lost_objects_pct : List ℚ
  wet_tubes_pct : List ℚ
  objects_in_cache_pct : List ℚ
  tubes_expired_by_time : List ℚ
  tubes_expired_by_reads : List ℚ
  max_reads : Option ℤ
  initial_tubes : Option ℤ
  objects_per_tube : Option ℤ
deriving DecidableEq, Repr

/-- Parameter extraction from `lines[1]` (lines 23–28): `int(float(params[i]))`
for i = 1, 3, 7 under `if len(params) >= 8`.  There is **no** `try` around
these, so a `ValueError` here escapes `parse_snapshot_file_detailed`
(`Except.error`). -/
def detailedHeader (lines : List Line) :
    Except Unit (Option ℤ × Option ℤ × Option ℤ) :=
  match lines.get? 1 with
  | none => Except.ok (none, none, none)
  | some params =>
    if 8 ≤ params.length then
      match params.get? 1, params.get? 3, params.get? 7 with
      | some p1, some p3, some p7 =>
        match pyFloat p1 with
        | none => Except.error ()
        | some q1 =>
          match pyFloat p3 with
          | none => Except.error ()
          | some q3 =>
            match pyFloat p7 with
            | none => Except.error ()
            | some q7 => Except.ok (some (pyTrunc q1), some (pyTrunc q3), some (pyTrunc q7))
      | _, _, _ => Except.ok (none, none, none)
    else Except.ok (none, none, none)

/-- The six raw columns appended by the data loop, before the year
conversion. -/
structure DetailedRaw where
  time_stamps : List ℚ
  lost_objects_pct : List ℚ
  wet_tubes_pct : List ℚ
  objects_in_cache_pct : List ℚ
  tubes_expired_by_time : List ℚ
  tubes_expired_by_reads : List ℚ
deriving DecidableEq, Repr

/-- The conversions of the `try` block (lines 35–40): `float` of
`parts[0]`, `parts[9]`, `parts[14]`, `parts[16]`, `parts[12]`, `parts[13]`;
`ValueError`/`IndexError` are caught, skipping the line. -/
def detailedRowVals (parts : Line) : Option (ℚ × ℚ × ℚ × ℚ × ℚ × ℚ) :=
  match parts.get? 0, parts.get? 9, parts.get? 14, parts.get? 16,
      parts.get? 12, parts.get? 13 with
  | some a0, some a9, some a14, some a16, some a12, some a13 =>
    match pyFloat a0, pyFloat a9, pyFloat a14, pyFloat a16,
        pyFloat a12, pyFloat a13 with
    | some v0, some v9, some v14, some v16, some v12, some v13 =>
      some (v0, v9, v14, v16, v12, v13)
    | _, _, _, _, _, _ => none
  | _, _, _, _, _, _ => none

/-- One iteration of the data loop (lines 31–49): only lines with at least 17
columns enter the `try` block; all conversions precede the appends. -/
def detailedLineStep (st : DetailedRaw) (parts : Line) : DetailedRaw :=
  if 17 ≤ parts.length then
    match detailedRowVals parts with
    | none => st
    | some (v0, v9, v14, v16, v12, v13) =>
      { time_stamps := st.time_stamps ++ [v0]
        lost_objects_pct := st.lost_objects_pct ++ [v9]
        wet_tubes_pct := st.wet_tubes_pct ++ [v14]
        objects_in_cache_pct := st.objects_in_cache_pct ++ [v16]
        tubes_expired_by_time := st.tubes_expired_by_time ++ [v12]
        tubes_expired_by_reads := st.tubes_expired_by_reads ++ [v13] }
  else st

/-- The data loop over `lines[3:]`. -/
def detailedRows (rows : List Line) : DetailedRaw :=
  rows.foldl detailedLineStep ⟨[], [], [], [], [], []⟩

/-- Fixed-rate time conversion (line 52):
`time_in_years = [t / (access_rate * 365) for t in time_stamps]`. -/
def fixedRateYears (access_rate : ℚ) (time_stamps : List ℚ) : List ℚ :=
  time_stamps.map (fun t => t / (access_rate * 365))

/-- `parse_snapshot_file_detailed`: header parameters from `lines[1]` (may
raise), data rows from `lines[3:]`, fixed-rate year conversion of the
timestamp column. -/
def parse_snapshot_file_detailed (lines : List Line) (access_rate : ℚ) :
    Except Unit DetailedResult :=
  match detailedHeader lines with
  | Except.error e => Except.error e
  | Except.ok (it, mr, opt) =>
    let raw := detailedRows (lines.drop 3)
    Except.ok
      { time := fixedRateYears access_rate raw.time_stamps
        lost_objects_pct := raw.lost_objects_pct
        wet_tubes_pct := raw.wet_tubes_pct
        objects_in_cache_pct := raw.objects_in_cache_pct
        tubes_expired_by_time := raw.tubes_expired_by_time
        tubes_expired_by_reads := raw.tubes_expired_by_reads
        max_reads := mr
        initial_tubes := it
        objects_per_tube := opt }

/-! ## `main.py`, `scale_to_years` (lines 59–64) -/

/-- Python's `max(timestamps)` on a nonempty list; the `[]` case is
unreachable in `scale_to_years` because of the `if not timestamps`
short-circuit (the value 0 here is arbitrary). -/
def pyMax : List ℚ → ℚ
  | [] => 0
  | x :: xs => xs.foldl max x

/-- `scale_to_years` (lines 59–64):
```
if not timestamps or max(timestamps) == 0:
    return timestamps
scale_factor = max_years / max(timestamps)
return [t * scale_factor for t in timestamps]
``` -/
def scale_to_years (timestamps : List ℚ) (max_years : ℚ) : List ℚ :=
  if timestamps = [] ∨ pyMax timestamps = 0 then timestamps
  else timestamps.map (fun t => t * (max_years / pyMax timestamps))

/-! ## Concrete input files used by the theorems below -/

/-- A format-"new snapshot" data row with the given lost-increment at column
10 and total at column 12 (13 columns, timestamp 1). -/
def lossRow (lost tot : ℤ) : Line :=
  [Tok.int 1] ++ List.replicate 9 (Tok.int 0) ++ [Tok.int lost, Tok.int 0, Tok.int tot]

/-- Header plus three rows with losses 10, 5, 0 against a constant total of
1000 (the spec's concrete scenario 1 shape). -/
def lossFile : List Line := [[], lossRow 10 1000, lossRow 5 1000, lossRow 0 1000]

/-- Header plus one 13-column row whose "total objects in system" column is 0:
no reference total can ever be established from this file. -/
def zeroTotalsFile : List Line := [[], [Tok.int 1] ++ List.replicate 12 (Tok.int 0)]

/-- A departures data row with the given timestamp and total at column 12. -/
def depRow (t tot : ℤ) : Line :=
  [Tok.int t] ++ List.replicate 11 (Tok.int 0) ++ [Tok.int tot]

/-- The spec's concrete scenario 4: totals 1000000, 1000000, 0. -/
def departScenarioFile : List Line :=
  [[], depRow 1 1000000, depRow 2 1000000, depRow 3 0]

/-- A 17-column detailed-format data row with the given timestamp. -/
def c6Row (t : ℤ) : Line := [Tok.int t] ++ List.replicate 16 (Tok.int 0)

/-- Three preamble lines (the second too short to carry parameters) plus the
spec's concrete scenario 2 timestamps 0, 365, 730. -/
def c6File : List Line := [[], [], [], c6Row 0, c6Row 365, c6Row 730]

/-- A 10-column data row: malformed under any variant requiring ≥ 17. -/
def shortRow : Line := List.replicate 10 (Tok.int 0)

/-- A 17-column data row whose required field at offset 9 (`m_lost_percent`)
is non-numeric text, so its `float` conversion raises `ValueError`. -/
def badTokRow : Line :=
  [Tok.int 1] ++ List.replicate 8 (Tok.int 0) ++ [Tok.bad] ++
    List.replicate 7 (Tok.int 0)

/-- A 14-column data row: the shape of a `pairwise`-variant file, below the
triplets parser's 16-column minimum. -/
def pairwiseRow : Line := List.replicate 14 (Tok.int 0)

/-- A pairwise-shaped file: 4 preamble lines (the second carrying
initial-tubes 1000 and max-time 3650) and two 14-column data rows. -/
def pairwiseFile : List Line :=
  [[], [Tok.int 0, Tok.int 1000, Tok.int 3650], [], [], pairwiseRow, pairwiseRow]

/-- The format-2 header naming all seven consumed columns in order. -/
def f2Header : List ColName :=
  [ColName.timestamp, ColName.objects_lost_since_last_snap,
   ColName.total_objects_in_the_system, ColName.total_objects_in_cache,
   ColName.tubes_wetted_percent, ColName.tubes_expired_by_reads_percent,
   ColName.tubes_expired_by_time_percent]

/-- A format-2 data row whose timestamp parses but whose
`objects_lost_since_last_snap` column is non-numeric text. -/
def f2BadRow : Line :=
  [Tok.int 5, Tok.bad, Tok.int 1, Tok.int 1, Tok.int 1, Tok.int 1, Tok.int 1]

/-! ## Helper lemmas -/

theorem le_foldl_max (xs : List ℚ) : ∀ a b : ℚ, a ≤ b → a ≤ xs.foldl max b := by
  induction xs with
  | nil => intro a b h; simpa using h
  | cons x rest ih =>
    intro a b h
    exact ih a (max b x) (le_trans h (le_max_left b x))

theorem pyMax_nonneg (l : List ℚ) (h : ∀ x ∈ l, 0 ≤ x) : 0 ≤ pyMax l := by
  match l with
  | [] => simp [pyMax]
  | x :: xs => exact le_foldl_max xs 0 x (h x (by simp))

theorem lossLineStep_initial_pos (st : LossState) (parts : Line)
    (h : ∀ r, st.initial_objects = some r → 0 < r) :
    ∀ r, (lossLineStep st parts).initial_objects = some r → 0 < r := by
  intro r hr
  unfold lossLineStep at hr
  split at hr
  · exact h r hr
  · cases hv : lossRowVals parts with
    | none => rw [hv] at hr; exact h r hr
    | some v =>
      obtain ⟨ts, lost, tot⟩ := v
      rw [hv] at hr
      simp only at hr
      cases hinit : st.initial_objects with
      | none =>
        rw [hinit] at hr
        by_cases htot : 0 < tot
        · simp only [if_pos htot, Option.some.injEq] at hr
          omega
        · simp [if_neg htot] at hr
      | some r' =>
        rw [hinit] at hr
        simp only [Option.some.injEq] at hr
        subst hr
        exact h r' hinit

theorem lossFold_initial_pos (rows : List Line) :
    ∀ st : LossState, (∀ r, st.initial_objects = some r → 0 < r) →
      ∀ r, (rows.foldl lossLineStep st).initial_objects = some r → 0 < r := by
  induction rows with
  | nil => intro st h; simpa using h
  | cons row rest ih =>
    intro st h
    exact ih (lossLineStep st row) (lossLineStep_initial_pos st row h)

theorem tripletsFold_id (rows : List Line) (mt : Option ℚ)
    (h : ∀ row ∈ rows, row.length < 16) :
    ∀ st : TripletsResult, rows.foldl (tripletsLineStep mt) st = st := by
  induction rows with
  | nil => intro st; rfl
  | cons row rest ih =>
    intro st
    have hrow : row.length < 16 := h row (by simp)
    have hstep : tripletsLineStep mt st row = st := by
      unfold tripletsLineStep
      rw [if_neg (by omega)]
    rw [List.foldl_cons, hstep]
    exact ih (fun r hr => h r (List.mem_cons_of_mem row hr)) st

theorem detailedLineStep_skip (st : DetailedRaw) (row : Line)
    (h : row.length < 17 ∨ detailedRowVals row = none) :
    detailedLineStep st row = st := by
  unfold detailedLineStep
  rcases h with h | h
  · rw [if_neg (by omega)]
  · by_cases hl : 17 ≤ row.length
    · rw [if_pos hl, h]
    · rw [if_neg hl]

/-! ## Claim theorems -/

/-- Claim C1: the cumulative-sum derivation of `calculate_metrics` is a
running total with an initial accumulator of 0: it preserves length,
satisfies `cumulative[i] = cumulative[i-1] + increment[i]` (with
`cumulative[-1] = 0`), its last entry equals the sum of all increments, and
for non-negative increments the cumulative column is non-decreasing. -/
theorem cumulative_sum_running_total (losses : List ℚ) :
    (runningTotal losses).length = losses.length ∧
    (∀ i, i < losses.length →
      (runningTotal losses).getD i 0 =
        (if i = 0 then 0 else (runningTotal losses).getD (i - 1) 0) + losses.getD i 0) ∧
    (runningTotal losses).getLastD 0 = losses.sum ∧
    ((∀ x ∈ losses, 0 ≤ x) → (runningTotal losses).Chain' (· ≤ ·)) := by
  refine ⟨runningTotal_length losses, runningTotalAux_getD 0 losses, ?_,
    runningTotalAux_chain' 0 losses⟩
  have h := runningTotalAux_getLastD 0 losses
  simpa [runningTotal] using h

/-- Witness for C1 at the spec's scenario-1 increments 10, 5, 0. -/
theorem cumulative_sum_running_total_witness :
    (runningTotal [10, 5, 0]).getD 1 0 =
      (if (1 : ℕ) = 0 then 0 else (runningTotal [10, 5, 0]).getD 0 0) +
        ([10, 5, 0] : List ℚ).getD 1 0 ∧
    (runningTotal [10, 5, 0]).getLastD 0 = ([10, 5, 0] : List ℚ).sum ∧
    (runningTotal [10, 5, 0]).Chain' (· ≤ ·) :=
  ⟨(cumulative_sum_running_total [10, 5, 0]).2.1 1 (by decide),
   (cumulative_sum_running_total [10, 5, 0]).2.2.1,
   (cumulative_sum_running_total [10, 5, 0]).2.2.2 (by decide)⟩

/-- Claim C6: the fixed-rate conversion computes `years = raw_time /
(accesses_per_day * 365)`; on raw timestamps 0, 365, 730 with
`accesses_per_day = 100` the full detailed parser produces exactly
0, 0.01, 0.02 years. -/
theorem fixed_rate_conversion_concrete :
    fixedRateYears 100 [0, 365, 730] = [0, 1 / 100, 1 / 50] ∧
    Except.map DetailedResult.time (parse_snapshot_file_detailed c6File 100) =
      Except.ok [0, 1 / 100, 1 / 50] := by
  constructor
  · show [(0 : ℚ) / (100 * 365), 365 / (100 * 365), 730 / (100 * 365)] = [0, 1 / 100, 1 / 50]
    norm_num
  · simp only [parse_snapshot_file_detailed, detailedHeader, c6File, c6Row,
      detailedRows, detailedLineStep, detailedRowVals, fixedRateYears, pyFloat,
      List.replicate, List.drop, List.foldl, List.get?, List.length, List.map,
      List.cons_append, List.nil_append, Except.map]
    norm_num

/-- Claim C9: the parse-and-derive pipeline of
`parse_new_snapshot_file` is a pure function of the file contents (the
source keeps only function-local state), so parsing identical contents
twice yields identical results. -/
theorem parse_pure_of_contents (c₁ c₂ : List Line) (h : c₁ = c₂) :
    parse_new_snapshot_file c₁ = parse_new_snapshot_file c₂ := by
  rw [h]

/-- Witness for C9 at a concrete file. -/
theorem parse_pure_of_contents_witness :
    parse_new_snapshot_file lossFile = parse_new_snapshot_file lossFile :=
  parse_pure_of_contents lossFile lossFile rfl

/-- Claim C10: `scale_to_years` is total: it preserves length, returns the
input unchanged when the list is empty or its maximum is 0 (so it never
divides by zero), and otherwise multiplies every timestamp by
`max_years / max(timestamps)`. -/
theorem scale_to_years_total (ts : List ℚ) (my : ℚ) :
    (scale_to_years ts my).length = ts.length ∧
    (ts = [] ∨ pyMax ts = 0 → scale_to_years ts my = ts) ∧
    (ts ≠ [] → pyMax ts ≠ 0 →
      scale_to_years ts my = ts.map (fun t => t * (my / pyMax ts))) := by
  unfold scale_to_years
  by_cases h : ts = [] ∨ pyMax ts = 0
  · rw [if_pos h]
    exact ⟨rfl, fun _ => rfl, fun h1 h2 => absurd h (by tauto)⟩
  · rw [if_neg h]
    exact ⟨List.length_map ts _, fun hg => absurd hg h, fun _ _ => rfl⟩

/-- Witness for C10 on an empty list and on a list with maximum 10. -/
theorem scale_to_years_total_witness :
    scale_to_years [] 10 = ([] : List ℚ) ∧
    scale_to_years [0, 5, 10] 10 =
      ([0, 5, 10] : List ℚ).map (fun t => t * (10 / pyMax [0, 5, 10])) :=
  ⟨(scale_to_years_total [] 10).2.1 (Or.inl rfl),
   (scale_to_years_total [0, 5, 10] 10).2.2 (by decide) (by decide)⟩

/-- Claim C2, counterexample: on a file whose only data row carries a zero
"total objects in system" no reference total is ever established
(`initial_objects = none`), yet `parse_snapshot_for_departures` emits a
departure percentage of 0 for that row instead of signalling a
`NoReferenceTotal` condition — the percentage column is silently 0. -/
theorem departures_zero_percent_without_reference :
    parse_snapshot_for_departures zeroTotalsFile =
      ⟨[1], [0], [0], [0], none⟩ := rfl

/-- Claim C2, amended: in `parse_new_snapshot_file` the denominator, when
established, is the first positive "total objects in system" value (hence
positive), and the loss-percentage column is the cumulative column divided by
it; when no positive total is observed the percentage column is returned
empty (omitted), not as zeros.  (No `NoReferenceTotal` condition exists
anywhere in the code, and `parse_snapshot_for_departures` instead emits 0.) -/
theorem loss_reference_total_policy (lines : List Line) :
    ((parse_new_snapshot_file lines).initial_objects = none →
      (parse_new_snapshot_file lines).loss_percentages = []) ∧
    (∀ r, (parse_new_snapshot_file lines).initial_objects = some r →
      0 < r ∧
      (parse_new_snapshot_file lines).loss_percentages =
        (parse_new_snapshot_file lines).cumulative_lost.map
          (fun lost => (lost : ℚ) / (r : ℚ) * 100)) := by
  have hpos : ∀ r,
      ((lines.drop 1).foldl lossLineStep ⟨[], [], [], none, 0⟩).initial_objects = some r →
        0 < r :=
    lossFold_initial_pos (lines.drop 1) ⟨[], [], [], none, 0⟩ (fun r hr => by simp at hr)
  simp only [parse_new_snapshot_file]
  revert hpos
  generalize (lines.drop 1).foldl lossLineStep ⟨[], [], [], none, 0⟩ = st
  intro hpos
  cases hst : st.initial_objects with
  | none => simp [hst]
  | some r0 =>
    have h0 : 0 < r0 := hpos r0 hst
    simp only [hst, if_pos h0]
    refine ⟨fun hnone => by simp at hnone, fun r hr => ?_⟩
    simp only [Option.some.injEq] at hr
    subst hr
    exact ⟨h0, rfl⟩

/-- Witness for the amended C2: a file with only zero totals yields an empty
percentage column, and the scenario-1 file establishes the positive
denominator 1000. -/
theorem loss_reference_total_policy_witness :
    (parse_new_snapshot_file zeroTotalsFile).loss_percentages = [] ∧
    (0 < (1000 : ℤ) ∧
      (parse_new_snapshot_file lossFile).loss_percentages =
        (parse_new_snapshot_file lossFile).cumulative_lost.map
          (fun lost => (lost : ℚ) / ((1000 : ℤ) : ℚ) * 100)) :=
  ⟨(loss_reference_total_policy zeroTotalsFile).1 rfl,
   (loss_reference_total_policy lossFile).2 1000 rfl⟩

/-- Claim C3, counterexample: feeding a pairwise-shaped file (14-column data
rows) through the triplets parser does not raise any `FormatUnrecognized`
condition — no such condition exists in the code; the parser returns
normally, silently skipping every data row and producing empty series. -/
theorem triplets_on_pairwise_returns_empty :
    parse_snaps_file_triplets pairwiseFile =
      ⟨[], [], [], [], [], [], some 1000⟩ := rfl

/-- Claim C3, amended: when every data row of a file is below the triplets
parser's 16-column minimum (e.g. any pairwise-shaped file), `parse_snaps_file`
of `track_tube_status_with_triplets.py` silently skips every row and returns
empty series (keeping whatever the preamble provided), rather than signalling
a format condition. -/
theorem triplets_short_rows_all_skipped (lines : List Line)
    (h : ∀ row ∈ lines.drop 4, row.length < 16) :
    parse_snaps_file_triplets lines =
      ⟨[], [], [], [], [], [], (tripletsHeader lines).1⟩ := by
  show (lines.drop 4).foldl (tripletsLineStep (tripletsHeader lines).2)
      ⟨[], [], [], [], [], [], (tripletsHeader lines).1⟩ =
    ⟨[], [], [], [], [], [], (tripletsHeader lines).1⟩
  exact tripletsFold_id (lines.drop 4) (tripletsHeader lines).2 h _

/-- Witness for the amended C3 at the concrete pairwise-shaped file. -/
theorem triplets_short_rows_all_skipped_witness :
    parse_snaps_file_triplets pairwiseFile =
      ⟨[], [], [], [], [], [], (tripletsHeader pairwiseFile).1⟩ :=
  triplets_short_rows_all_skipped pairwiseFile (by decide)

/-- Claim C4: each of the three time-rescaling policies — fixed-rate division
by `accesses_per_day * 365`, header-relative scaling by
`10 / max_time_from_header` (with its 182625 fallback), and max-normalization
by `10 / max(raw_time)` — maps a non-decreasing raw-time sequence to a
non-decreasing `time_years` sequence, under the data-model constraints that
the rate is positive, the header time (when present) is non-negative, and raw
times are non-negative counts. -/
theorem time_years_monotone :
    (∀ (rate : ℚ) (raw : List ℚ), 0 < rate → raw.Chain' (· ≤ ·) →
      (fixedRateYears rate raw).Chain' (· ≤ ·)) ∧
    (∀ (mt : Option ℚ) (raw : List ℤ), (∀ m, mt = some m → 0 ≤ m) →
      raw.Chain' (· ≤ ·) → (raw.map (toYear mt)).Chain' (· ≤ ·)) ∧
    (∀ (my : ℚ) (ts : List ℚ), 0 ≤ my → (∀ x ∈ ts, 0 ≤ x) → ts.Chain' (· ≤ ·) →
      (scale_to_years ts my).Chain' (· ≤ ·)) := by
  refine ⟨?_, ?_, ?_⟩
  · intro rate raw hrate hraw
    have hc : (0 : ℚ) < rate * 365 := by positivity
    simp only [fixedRateYears]
    rw [List.chain'_map]
    exact hraw.imp fun a b hab => (div_le_div_iff_of_pos_right hc).mpr hab
  · intro mt raw hmt hraw
    rw [List.chain'_map]
    refine hraw.imp fun a b hab => ?_
    have hab' : (a : ℚ) ≤ (b : ℚ) := Int.cast_le.mpr hab
    cases mt with
    | none =>
      simp only [toYear]
      exact mul_le_mul_of_nonneg_right
        ((div_le_div_iff_of_pos_right (by norm_num)).mpr hab') (by norm_num)
    | some m =>
      have hm : 0 ≤ m := hmt m rfl
      simp only [toYear]
      by_cases hm0 : m ≠ 0
      · rw [if_pos hm0, if_pos hm0]
        have hmpos : 0 < m := lt_of_le_of_ne hm (Ne.symm hm0)
        exact mul_le_mul_of_nonneg_right
          ((div_le_div_iff_of_pos_right hmpos).mpr hab') (by norm_num)
      · rw [if_neg hm0, if_neg hm0]
        exact mul_le_mul_of_nonneg_right
          ((div_le_div_iff_of_pos_right (by norm_num)).mpr hab') (by norm_num)
  · intro my ts hmy hnn hts
    unfold scale_to_years
    by_cases hg : ts = [] ∨ pyMax ts = 0
    · rw [if_pos hg]; exact hts
    · rw [if_neg hg, List.chain'_map]
      have hfac : 0 ≤ my / pyMax ts := div_nonneg hmy (pyMax_nonneg ts hnn)
      exact hts.imp fun a b hab => mul_le_mul_of_nonneg_right hab hfac

/-- Witness for C4 at concrete inputs for all three policies. -/
theorem time_years_monotone_witness :
    (fixedRateYears 100 [0, 365, 730]).Chain' (· ≤ ·) ∧
    (([0, 1, 2] : List ℤ).map (toYear (some 3650))).Chain' (· ≤ ·) ∧
    (scale_to_years [0, 5, 10] 10).Chain' (· ≤ ·) :=
  ⟨time_years_monotone.1 100 [0, 365, 730] (by norm_num)
     (by norm_num [List.chain'_cons]),
   time_years_monotone.2.1 (some 3650) [0, 1, 2]
     (fun m hm => by simp only [Option.some.injEq] at hm; rw [← hm]; norm_num)
     (by norm_num [List.chain'_cons]),
   time_years_monotone.2.2 10 [0, 5, 10] (by norm_num) (by decide)
     (by norm_num [List.chain'_cons])⟩

/-- Claim C5, counterexample: a 10-column row inserted among ≥17-column data
rows is skipped without aborting and without an exception, but the parse
result is **identical** to that of the file without the malformed row — so no
skip counter (nor any other trace of the skip) is observable by the caller,
contradicting "a skip counter observable by the caller increments by exactly
1 per skipped line". -/
theorem detailed_skip_not_observable :
    parse_snapshot_file_detailed [[], [], [], c6Row 1, shortRow, c6Row 2] 100 =
      parse_snapshot_file_detailed [[], [], [], c6Row 1, c6Row 2] 100 := rfl

/-- Claim C5, amended: a malformed data row — one below the 17-column
minimum, or one whose required fields fail numeric conversion
(`detailedRowVals` yields `none`, the caught `ValueError`/`IndexError` of the
data-line `try`) — is skipped without aborting the file and without any
exception escaping, but no skip counter exists: removing the malformed row
from the file yields the exact same result. -/
theorem detailed_malformed_line_skipped (pre post : List Line) (row : Line)
    (rate : ℚ) (hpre : 3 ≤ pre.length)
    (hrow : row.length < 17 ∨ detailedRowVals row = none) :
    parse_snapshot_file_detailed (pre ++ row :: post) rate =
      parse_snapshot_file_detailed (pre ++ post) rate := by
  have h1 : (pre ++ row :: post).get? 1 = pre.get? 1 := by
    rw [List.get?_eq_getElem?, List.get?_eq_getElem?]
    exact List.getElem?_append_left (by omega)
  have h2 : (pre ++ post).get? 1 = pre.get? 1 := by
    rw [List.get?_eq_getElem?, List.get?_eq_getElem?]
    exact List.getElem?_append_left (by omega)
  have hh : detailedHeader (pre ++ row :: post) = detailedHeader (pre ++ post) := by
    unfold detailedHeader
    rw [h1, h2]
  have hz : 3 - pre.length = 0 := by omega
  have hd1 : (pre ++ row :: post).drop 3 = pre.drop 3 ++ row :: post := by
    rw [List.drop_append_eq_append_drop, hz, List.drop_zero]
  have hd2 : (pre ++ post).drop 3 = pre.drop 3 ++ post := by
    rw [List.drop_append_eq_append_drop, hz, List.drop_zero]
  have hr : detailedRows ((pre ++ row :: post).drop 3) =
      detailedRows ((pre ++ post).drop 3) := by
    rw [hd1, hd2]
    unfold detailedRows
    rw [List.foldl_append, List.foldl_append, List.foldl_cons,
      detailedLineStep_skip _ row hrow]
  unfold parse_snapshot_file_detailed
  rw [hh, hr]

/-- Witness for the amended C5, exercising both malformed-row classes: the
scenario-3 shape (a 10-column row under the ≥17-column variant) and a
17-column row whose required field is non-numeric. -/
theorem detailed_malformed_line_skipped_witness :
    (parse_snapshot_file_detailed ([[], [], [], c6Row 1] ++ shortRow :: [c6Row 2]) 100 =
      parse_snapshot_file_detailed ([[], [], [], c6Row 1] ++ [c6Row 2]) 100) ∧
    (parse_snapshot_file_detailed ([[], [], [], c6Row 1] ++ badTokRow :: [c6Row 2]) 100 =
      parse_snapshot_file_detailed ([[], [], [], c6Row 1] ++ [c6Row 2]) 100) :=
  ⟨detailed_malformed_line_skipped [[], [], [], c6Row 1] [c6Row 2] shortRow 100
      (by decide) (Or.inl (by decide)),
   detailed_malformed_line_skipped [[], [], [], c6Row 1] [c6Row 2] badTokRow 100
      (by decide) (Or.inr rfl)⟩

/-- Claim C7: once the reference total `r > 0` is established, every parsed
record appends `departed = r - current_total` and `departure_percent =
departed / r * 100`; and on the scenario-4 totals 1000000, 1000000, 0 the
derived series are exactly `departed = [0, 0, 1000000]`,
`departure_percent = [0, 0, 100]`. -/
theorem departure_derivation :
    (∀ (st : DepartState) (parts : Line) (ts : ℚ) (tot r : ℤ),
      st.initial_objects = some r → 0 < r → 13 ≤ parts.length →
      departRowVals parts = some (ts, tot) →
      departLineStep st parts =
        { times := st.times ++ [ts]
          objects_in_system := st.objects_in_system ++ [tot]
          objects_departed := st.objects_departed ++ [r - tot]
          departure_percentage :=
            st.departure_percentage ++ [((r - tot : ℤ) : ℚ) / (r : ℚ) * 100]
          initial_objects := some r }) ∧
    parse_snapshot_for_departures departScenarioFile =
      ⟨[1, 2, 3], [1000000, 1000000, 0], [0, 0, 1000000], [0, 0, 100],
        some 1000000⟩ := by
  constructor
  · intro st parts ts tot r hinit hr hlen hrow
    unfold departLineStep
    rw [if_neg (by omega), hrow]
    simp only [hinit, if_pos hr]
  · simp only [parse_snapshot_for_departures, departScenarioFile, depRow,
      List.replicate, departLineStep, departRowVals, pyFloat, pyInt, List.drop,
      List.foldl, List.get?, List.length, List.cons_append, List.nil_append]
    norm_num

/-- Witness for C7: one step from a state whose reference total is 5, on a
row with total 3. -/
theorem departure_derivation_witness :
    departLineStep ⟨[], [], [], [], some 5⟩ (depRow 1 3) =
      { times := ([] : List ℚ) ++ [1]
        objects_in_system := ([] : List ℤ) ++ [3]
        objects_departed := ([] : List ℤ) ++ [(5 : ℤ) - 3]
        departure_percentage :=
          ([] : List ℚ) ++ [(((5 : ℤ) - 3 : ℤ) : ℚ) / ((5 : ℤ) : ℚ) * 100]
        initial_objects := some 5 } :=
  departure_derivation.1 ⟨[], [], [], [], some 5⟩ (depRow 1 3) 1 3 5 rfl
    (by decide) (by decide) (by decide)

/-- Claim C8 (refuted; the code has a slip): on a data row whose timestamp
parses but whose `objects_lost_since_last_snap` column is non-numeric,
`parse_snaps_file` of `analyze_snaps_format2.py` appends the timestamp
*before* the failing conversion, so the time axis has length 1 while the
derived `cumulative_lost` column (and the zip-truncated
`total_expired_tubes_percent`) have length 0 — violating the invariant
`len(time_years) == len(any derived column)` (and crashing the script's own
CSV writer, which indexes every column by `range(len(timestamp))`). -/
theorem format2_ragged_lengths :
    parse_snaps_file_f2 f2Header [f2BadRow] =
      Except.ok ⟨[5], [], [], [], [], [], []⟩ ∧
    (calculate_metrics ⟨[5], [], [], [], [], [], []⟩ 1000000).cumulative_lost.length = 0 ∧
    (calculate_metrics ⟨[5], [], [], [], [], [], []⟩ 1000000).total_expired_tubes_percent.length = 0 ∧
    (⟨[5], [], [], [], [], [], []⟩ : Format2Data).timestamp.length = 1 :=
  ⟨rfl, rfl, rfl, rfl⟩

end Snaps
